import Mathlib

/-!
Verification of the RAG ingestion/retrieval core of the
gemini-fullstack-langgraph-quickstart repository.

The Python modules under `src/backend/src/rag/` are shallowly embedded:

* `vector_store.py`   → `TierStore`, `HybridVectorStore`
* `document_processor.py` → `DocumentProcessor`, `DocumentProcessor.process`
* `embeddings.py`     → `EmbeddingService.create`
* `rag_graph.py`      → `rag_load_data_from_gcs`

External collaborators (Chroma/PGVector backends, pdfminer, PyPDFLoader,
the LangChain splitter, and Google Cloud Storage) are modelled as explicit
environment data quantified over in every theorem: a backend vector store
is a ranking function over its stored documents, a PDF is its per-page
extractable text plus flags saying whether the extraction/loading
libraries raise on it, and GCS is a pair of (possibly failing) functions
for object existence and download.
-/

set_option autoImplicit false

/-- A LangChain `Document`: page content plus the metadata fields the
repository reads or writes (`source`, `chunk_index`, `page`). -/
structure Document where
  page_content : String
  source : Option String
  chunk_index : Option Nat
  page : Option Nat
deriving DecidableEq, Repr

/-- The error taxonomy of the repository: `OCRRequiredError`,
`FileProcessingError`, `GCSConnectionError` (document_processor.py),
Python's builtin `FileNotFoundError` and `ValueError`, and `ConfigError`
(embeddings.py). Each carries its message string. -/
inductive PError where
  | ocrRequired (msg : String)
  | fileProcessing (msg : String)
  | gcsConnection (msg : String)
  | notFound (msg : String)
  | valueErr (msg : String)
  | configErr (msg : String)
deriving DecidableEq, Repr

/-- The exception class of a `PError`, forgetting the message. -/
inductive ErrKind where
  | ocrRequired
  | fileProcessing
  | gcsConnection
  | notFound
  | valueErr
  | configErr
deriving DecidableEq, Repr

def PError.kind : PError → ErrKind
  | .ocrRequired _ => .ocrRequired
  | .fileProcessing _ => .fileProcessing
  | .gcsConnection _ => .gcsConnection
  | .notFound _ => .notFound
  | .valueErr _ => .valueErr
  | .configErr _ => .configErr

/-- The exception class with which a computation failed (`none` if it
returned normally). -/
def resultKind {α : Type} : Except PError α → Option ErrKind
  | .ok _ => none
  | .error e => some e.kind

/-- `Except.mapError`, spelled out: re-raise a failure after transforming
the exception, leave normal returns alone. -/
def mapErr {α : Type} (f : PError → PError) : Except PError α → Except PError α
  | .ok a => .ok a
  | .error e => .error (f e)

/-- Whether `p` is an initial segment of `s` (structural recursion on the
character lists, so that concrete instances compute inside proofs). -/
def listStarts : List Char → List Char → Bool
  | _, [] => true
  | [], _ :: _ => false
  | c :: cs, d :: ds => c == d && listStarts cs ds

/-- Python `s.startswith(p)`. -/
def strStartsWith (s p : String) : Bool :=
  listStarts s.data p.data

/-- Python `s.endswith(p)`. -/
def strEndsWith (s p : String) : Bool :=
  listStarts s.data.reverse p.data.reverse

/-- Python `s.lower()`. -/
def strToLower (s : String) : String :=
  ⟨s.data.map Char.toLower⟩

/-- Python `not s` for a string: emptiness. -/
def strIsEmpty (s : String) : Bool :=
  s.data.isEmpty

/-- Python `s[n:]` (character slicing). -/
def strDrop (s : String) (n : Nat) : String :=
  ⟨s.data.drop n⟩

/-! ## Tiered vector store (`vector_store.py`) -/

/-- One backend vector store (Chroma for the hot tier, PGVector for the
cold tier).  `docs` is its persisted content; `rank` abstracts the
backend's nearest-neighbour ordering of the stored documents for a given
query, so `similarity_search q k` returns the first `k` of that ordering,
exactly as the backends return at most `k` nearest documents in their own
rank order. -/
structure TierStore where
  rank : String → List Document → List Document
  docs : List Document

/-- The backend's `similarity_search(query, k)`: up to `k` results in the
backend's own order. -/
def TierStore.similarity_search (st : TierStore) (query : String) (k : Nat) : List Document :=
  (st.rank query st.docs).take k

/-- The backend's `add_documents`: append to the stored collection. -/
def TierStore.add_documents (st : TierStore) (docs : List Document) : TierStore :=
  { st with docs := st.docs ++ docs }

/-- The two write tiers of `HybridVectorStore.add_documents`. -/
inductive Tier where
  | hot
  | cold
deriving DecidableEq, Repr

/-- `HybridVectorStore`: a hot store that always exists and a cold store
that is `none` when `DATABASE_URL` is not configured. -/
structure HybridVectorStore where
  hot_store : TierStore
  cold_store : Option TierStore

/-- `HybridVectorStore.add_documents(docs, tier)`.  The result is the
exception raised (if any) paired with the state of the store afterwards;
raising leaves the store as it was. -/
def HybridVectorStore.add_documents (s : HybridVectorStore) (docs : List Document)
    (tier : Tier) : Option PError × HybridVectorStore :=
  match tier with
  | .hot => (none, { s with hot_store := s.hot_store.add_documents docs })
  | .cold =>
    match s.cold_store with
    | none => (some (.configErr "DATABASE_URL is not configured"), s)
    | some cs => (none, { s with cold_store := some (cs.add_documents docs) })

/-- `HybridVectorStore.similarity_search(query, k)`: hot tier first, cold
tier only for the shortfall.  The second component counts how many times
the cold store was queried (0 or 1). -/
def HybridVectorStore.similarity_search (s : HybridVectorStore) (query : String)
    (k : Nat) : List Document × Nat :=
  let results := s.hot_store.similarity_search query k
  if k ≤ results.length then
    (results.take k, 0)
  else
    let remaining := k - results.length
    match s.cold_store with
    | none => (results, 0)
    | some cs => (results ++ cs.similarity_search query remaining, 1)

/-! ## Document processor (`document_processor.py`) -/

/-- A PDF file as the processing libraries see it: the machine-extractable
text of each page, plus whether `pdfminer.extract_text` respectively
`PyPDFLoader.load` raise on this file. -/
structure PdfFile where
  pages : List String
  extractRaises : Bool
  loadRaises : Bool
deriving DecidableEq, Repr

/-- Google Cloud Storage, abstracted: `blobExists bucket blob` is
`blob.exists()` (its `.error` case models the call itself raising, e.g. on
connectivity loss), `download bucket blob` is `blob.download_to_filename`
followed by reading the temporary file (its `.error` case models a failed
download). -/
structure GcsWorld where
  blobExists : String → String → Except Unit Bool
  download : String → String → Except Unit PdfFile

/-- The external environment of `DocumentProcessor`: the local filesystem
(`localFile path` is `some f` exactly when `path` names a regular file
with content `f`), the LangChain `RecursiveCharacterTextSplitter`
(`split chunk_size chunk_overlap docs`), and GCS. -/
structure Env where
  localFile : String → Option PdfFile
  split : Nat → Nat → List Document → List Document
  gcs : GcsWorld

/-- The `DocumentProcessor` instance state: chunking parameters, the GCS
project id, and whether `self.storage_client` was initialized
successfully (`storage_client = false` models `None`). -/
structure DocumentProcessor where
  chunk_size : Nat
  chunk_overlap : Nat
  gcs_project_id : Option String
  storage_client : Bool

/-- `pdfminer.high_level.extract_text(file_path, maxpages=n)`: the
concatenated text of the first `n` pages, or a raised exception. -/
def extract_text (f : PdfFile) (maxpages : Nat) : Except Unit String :=
  if f.extractRaises then .error () else .ok (String.join (f.pages.take maxpages))

/-- Python's `not text.strip()`: every character of `text` is whitespace
(including form feed and vertical tab, which Python's `str.strip`
removes). -/
def isBlankText (text : String) : Bool :=
  text.toList.all fun c => c.isWhitespace || c == '\x0c' || c == '\x0b'

/-- `DocumentProcessor._ensure_text`: extract at most the first 3 pages;
an extraction exception becomes `FileProcessingError`, empty-after-strip
text becomes `OCRRequiredError`. -/
def DocumentProcessor.ensure_text (f : PdfFile) : Except PError Unit :=
  match extract_text f 3 with
  | .error _ => .error (.fileProcessing "Error extracting text for check")
  | .ok text =>
    if strIsEmpty text || isBlankText text then
      .error (.ocrRequired "PDF contains no extractable text and may require OCR.")
    else
      .ok ()

/-- `PyPDFLoader(file_path).load()`: one `Document` per page, with the
loader's own metadata (`source` = the local path handed to the loader,
`page` = page number). -/
def loadPages (file_path : String) (f : PdfFile) : List Document :=
  f.pages.enum.map fun p =>
    { page_content := p.2, source := some file_path, chunk_index := none, page := some p.1 }

/-- The provenance-stamping loop of `_process_local_pdf`:
`for i, doc in enumerate(chunks): doc.metadata["source"] = original_source;
doc.metadata["chunk_index"] = i`. -/
def stampChunks (original_source : String) (chunks : List Document) : List Document :=
  chunks.enum.map fun p => { p.2 with source := some original_source, chunk_index := some p.1 }

/-- `DocumentProcessor._process_local_pdf(file_path, original_source)` on
a file with content `f`.  Returns the result together with the number of
times the splitter was invoked (0 when the text-availability check or the
loader failed first). -/
def DocumentProcessor.process_local_pdf (dp : DocumentProcessor) (env : Env)
    (file_path : String) (f : PdfFile) (original_source : String) :
    Except PError (List Document) × Nat :=
  match DocumentProcessor.ensure_text f with
  | .error e => (.error e, 0)
  | .ok _ =>
    if f.loadRaises then
      (.error (.fileProcessing ("Error loading PDF " ++ file_path ++ " with PyPDFLoader")), 0)
    else
      let docs := loadPages file_path f
      let chunks := env.split dp.chunk_size dp.chunk_overlap docs
      (.ok (stampChunks original_source chunks), 1)

/-- Python `Path(s).name`: the final path component. -/
def pathBasename (s : String) : String :=
  ⟨(s.data.reverse.takeWhile (fun c => c != '/')).reverse⟩

/-- Index of the last occurrence of `c` in `cs`, as in Python's
`str.rfind`. -/
def lastIdxOf (cs : List Char) (c : Char) : Option Nat :=
  match cs with
  | [] => none
  | x :: xs =>
    match lastIdxOf xs c with
    | some i => some (i + 1)
    | none => if x == c then some 0 else none

/-- Python `Path(s).suffix`: `name[i:]` for the last dot at position
`0 < i < len(name) - 1`, else the empty string. -/
def pathSuffix (s : String) : String :=
  let name := pathBasename s
  let cs := name.toList
  match lastIdxOf cs '.' with
  | some i => if 0 < i && i < cs.length - 1 then String.mk (cs.drop i) else ""
  | none => ""

/-- Break a character list at the first `'/'`; `none` when there is no
slash. -/
def breakAtSlash : List Char → Option (List Char × List Char)
  | [] => none
  | c :: cs =>
    if c == '/' then
      some ([], cs)
    else
      match breakAtSlash cs with
      | some (a, b) => some (c :: a, b)
      | none => none

/-- Python `s.split("/", 1)` followed by unpacking into two names:
`none` models the `ValueError` raised when there is no slash. -/
def splitOnFirstSlash (s : String) : Option (String × String) :=
  match breakAtSlash s.data with
  | some (a, b) => some (⟨a⟩, ⟨b⟩)
  | none => none

/-- The `except` ladder of the `gs://` branch of `process`:
`GCSConnectionError`, `FileNotFoundError` and `ValueError` are re-raised
unchanged; every other exception is wrapped into
`GCSConnectionError(f"Error processing GCS file {uri}: {e}")`. -/
def wrapGcsError (uri : String) : PError → PError
  | .gcsConnection m => .gcsConnection m
  | .notFound m => .notFound m
  | .valueErr m => .valueErr m
  | _ => .gcsConnection ("Error processing GCS file " ++ uri)

/-- The observable outcome of one `DocumentProcessor.process` call: the
returned chunks or raised exception, whether a temporary file was created
(the `NamedTemporaryFile` of the `gs://` branch), whether it was deleted
again (`os.remove` in the `finally` block), and how many times the
full-document splitter ran. -/
structure ProcResult where
  result : Except PError (List Document)
  tempCreated : Bool
  tempDeleted : Bool
  splitCalls : Nat

/-- `DocumentProcessor.process(file_path_or_uri)`. -/
def DocumentProcessor.process (dp : DocumentProcessor) (env : Env) (uri : String) : ProcResult :=
  if strStartsWith uri "gs://" then
    if !dp.storage_client then
      ⟨.error (.gcsConnection "GCS client not available."), false, false, 0⟩
    else
      match splitOnFirstSlash (strDrop uri 5) with
      | none => ⟨.error (.valueErr "not enough values to unpack"), false, false, 0⟩
      | some (bucket_name, blob_name) =>
        match env.gcs.blobExists bucket_name blob_name with
        | .error _ =>
          ⟨.error (.gcsConnection ("Error processing GCS file " ++ uri)), false, false, 0⟩
        | .ok false =>
          ⟨.error (.notFound ("GCS object not found: " ++ uri)), false, false, 0⟩
        | .ok true =>
          if !(strEndsWith (strToLower blob_name) ".pdf") then
            ⟨.error (.valueErr "Only .pdf files are supported from GCS."), false, false, 0⟩
          else
            match env.gcs.download bucket_name blob_name with
            | .error _ =>
              ⟨.error (.gcsConnection ("Error processing GCS file " ++ uri)), true, true, 0⟩
            | .ok f =>
              let r := dp.process_local_pdf env "/tmp/tmpfile.pdf" f uri
              ⟨mapErr (wrapGcsError uri) r.1, true, true, r.2⟩
  else
    if !(strToLower (pathSuffix uri) == ".pdf") then
      ⟨.error (.valueErr "Only .pdf files are supported for local files."), false, false, 0⟩
    else
      match env.localFile uri with
      | none => ⟨.error (.notFound ("Local file not found: " ++ uri)), false, false, 0⟩
      | some f =>
        let r := dp.process_local_pdf env uri f uri
        ⟨r.1, false, false, r.2⟩

/-! ## Embedding service (`embeddings.py`) -/

/-- Python truthiness of an optional string (`os.getenv` result or
argument): `None` and `""` are falsy. -/
def truthy (o : Option String) : Bool :=
  match o with
  | none => false
  | some s => !strIsEmpty s

/-- Python `a or b` on optional strings: `a` when truthy, else `b`. -/
def orTruthy (a b : Option String) : Option String :=
  if truthy a then a else b

/-- The module-level default region in `embeddings.py`. -/
def GCP_LOCATION : String := "us-central1"

/-- A successfully constructed `EmbeddingService`: its resolved
configuration. -/
structure EmbeddingService where
  project_id : String
  location : String
  model_name : String
deriving DecidableEq, Repr

/-- The environment `EmbeddingService.__init__` reads: the three
configuration variables and whether `vertexai.init` plus
`TextEmbeddingModel.from_pretrained` succeed. -/
structure EmbEnv where
  gcp_project_id : Option String
  gcp_location : Option String
  embedding_model_name : Option String
  vertexInitOk : Bool

/-- `EmbeddingService.__init__(model_name, project_id, location)`:
resolve each value as `argument or environment` (with the module default
for the location), then fail fast with `ConfigError` on any falsy
required value, then initialize Vertex AI (failures there are wrapped
into `ConfigError` as well). -/
def EmbeddingService.create (model_name project_id location : Option String)
    (env : EmbEnv) : Except PError EmbeddingService :=
  let project_id := orTruthy project_id env.gcp_project_id
  let location := orTruthy location (some (env.gcp_location.getD GCP_LOCATION))
  let model_name := orTruthy model_name env.embedding_model_name
  if !truthy project_id then
    .error (.configErr "GCP_PROJECT_ID is not set.")
  else if !truthy model_name then
    .error (.configErr "EMBEDDING_MODEL_NAME is not set.")
  else if !truthy location then
    .error (.configErr "GCP_LOCATION is not set.")
  else if !env.vertexInitOk then
    .error (.configErr "Failed to initialize Vertex AI or load model")
  else
    .ok ⟨project_id.getD "", location.getD "", model_name.getD ""⟩

/-! ## Bulk ingestion driver (`rag_graph.py`, `rag_load_data_from_gcs`) -/

/-- `RagGraphState` of `rag_graph.py`. -/
structure RagGraphState where
  documents_processed_from_gcs : Nat
  gcs_bucket_name : Option String
  error_messages : List String
deriving DecidableEq, Repr

/-- The `config.configurable` entries the node expects; either may be
missing. -/
structure RagConfig where
  document_processor : Option DocumentProcessor
  vector_store : Option HybridVectorStore

/-- The environment of a bulk-ingestion run: the two environment
variables, GCS bucket listing (`storage_client.list_blobs`, whose
`.error` case models the listing raising), and the document-processing
environment. -/
structure RagEnv where
  gcp_project_id : Option String
  rag_gcs_bucket_name : Option String
  listBlobs : String → Except Unit (List String)
  docEnv : Env

/-- The observable outcome of one `rag_load_data_from_gcs` call: the
returned state, the vector store afterwards (when one was wired in), and
how many times the bucket was enumerated. -/
structure RagOutcome where
  state : RagGraphState
  vector_store : Option HybridVectorStore
  listCalls : Nat

/-- The GCS URI built for a blob inside the loop:
`f"gs://{gcs_bucket_name}/{blob.name}"`. -/
def ragUri (bucket blobName : String) : String :=
  "gs://" ++ bucket ++ "/" ++ blobName

/-- The per-document error entry:
`f"Failed to process document {gcs_uri}: {e}"`. -/
def ragErrMsg (bucket blobName : String) : String :=
  "Failed to process document " ++ ragUri bucket blobName

/-- The body of the `for blob in blobs` loop, as a fold step over
`(vector store, processed_count, error list)`: skip non-`.pdf` names,
process, skip silently on an empty chunk list, otherwise add to the cold
tier and count; any exception from processing or adding is appended to
the error list and the loop continues. -/
def ragStep (dp : DocumentProcessor) (env : Env) (bucket : String)
    (acc : HybridVectorStore × Nat × List String) (blobName : String) :
    HybridVectorStore × Nat × List String :=
  if strEndsWith (strToLower blobName) ".pdf" then
    match (dp.process env (ragUri bucket blobName)).result with
    | .error _ => (acc.1, acc.2.1, acc.2.2 ++ [ragErrMsg bucket blobName])
    | .ok chunks =>
      if chunks.isEmpty then
        acc
      else
        match acc.1.add_documents chunks .cold with
        | (some _, vs) => (vs, acc.2.1, acc.2.2 ++ [ragErrMsg bucket blobName])
        | (none, vs) => (vs, acc.2.1 + 1, acc.2.2)
  else
    acc

/-- The pre-loop fix-up
`if not document_processor.gcs_project_id: document_processor.gcs_project_id = gcp_project_id`. -/
def resolveDp (dp : DocumentProcessor) (gcp_project_id : Option String) : DocumentProcessor :=
  if truthy dp.gcs_project_id then dp else { dp with gcs_project_id := gcp_project_id }

def cfgMissingMsg : String := "DocumentProcessor or HybridVectorStore not provided in config."

def projMissingMsg : String := "GCP_PROJECT_ID environment variable not set."

def bucketMissingMsg : String := "RAG_GCS_BUCKET_NAME not set in environment or provided in state."

def listErrMsg (bucket : String) : String :=
  "Error listing blobs or during GCS operations for bucket " ++ bucket

/-- `rag_load_data_from_gcs(state, config)`. -/
def rag_load_data_from_gcs (state : RagGraphState) (cfg : RagConfig) (renv : RagEnv) :
    RagOutcome :=
  let gcs_bucket_name := orTruthy state.gcs_bucket_name renv.rag_gcs_bucket_name
  let current_errors := state.error_messages
  if cfg.document_processor.isNone || cfg.vector_store.isNone then
    ⟨⟨0, gcs_bucket_name, current_errors ++ [cfgMissingMsg]⟩, cfg.vector_store, 0⟩
  else if !truthy renv.gcp_project_id then
    ⟨⟨0, gcs_bucket_name, current_errors ++ [projMissingMsg]⟩, cfg.vector_store, 0⟩
  else if !truthy gcs_bucket_name then
    ⟨⟨0, gcs_bucket_name, current_errors ++ [bucketMissingMsg]⟩, cfg.vector_store, 0⟩
  else
    match cfg.document_processor, cfg.vector_store with
    | some dp0, some vs =>
      let bucket := gcs_bucket_name.getD ""
      let dp := resolveDp dp0 renv.gcp_project_id
      match renv.listBlobs bucket with
      | .error _ =>
        ⟨⟨0, gcs_bucket_name, current_errors ++ [listErrMsg bucket]⟩, some vs, 1⟩
      | .ok blobs =>
        let r := blobs.foldl (ragStep dp renv.docEnv bucket) (vs, 0, current_errors)
        ⟨⟨r.2.1, gcs_bucket_name, r.2.2⟩, some r.1, 1⟩
    | _, _ =>
      ⟨⟨0, gcs_bucket_name, current_errors ++ [cfgMissingMsg]⟩, cfg.vector_store, 0⟩

/-- A blob name that counts towards `processed_count` in the run: a
`.pdf` name whose processing returns a non-empty chunk list and whose
cold-tier write succeeds (i.e. the cold tier is configured;
`coldCfg` records that configuration bit, which `ragStep` preserves). -/
def blobProcessed (dp : DocumentProcessor) (env : Env) (bucket : String) (coldCfg : Bool)
    (blobName : String) : Bool :=
  strEndsWith (strToLower blobName) ".pdf" &&
    (match (dp.process env (ragUri bucket blobName)).result with
     | .ok chunks => !chunks.isEmpty && coldCfg
     | .error _ => false)

/-- A blob name that contributes an error entry to the run: a `.pdf` name
whose processing raises, or which produces chunks that the cold-tier
write then rejects (unconfigured cold tier). -/
def blobFailed (dp : DocumentProcessor) (env : Env) (bucket : String) (coldCfg : Bool)
    (blobName : String) : Bool :=
  strEndsWith (strToLower blobName) ".pdf" &&
    (match (dp.process env (ragUri bucket blobName)).result with
     | .ok chunks => !chunks.isEmpty && !coldCfg
     | .error _ => true)

/-! ## Concrete instances used in witnesses and counterexamples -/

def docA : Document := ⟨"alpha", none, none, none⟩

def docB : Document := ⟨"beta", none, none, none⟩

def docC : Document := ⟨"gamma", none, none, none⟩

/-- Hot-tier backend holding one document, ranking = insertion order. -/
def hotW : TierStore := ⟨fun _ ds => ds, [docA]⟩

/-- Cold-tier backend holding two documents, ranking = insertion order. -/
def coldW : TierStore := ⟨fun _ ds => ds, [docB, docC]⟩

/-- A store with one hot document and a configured cold tier. -/
def storeC1 : HybridVectorStore := ⟨hotW, some coldW⟩

/-- A store whose cold tier is unconfigured (`DATABASE_URL` absent). -/
def storeC3 : HybridVectorStore := ⟨hotW, none⟩

/-- A PDF on which `pdfminer.extract_text` raises. -/
def pdfRaises : PdfFile := ⟨["alpha"], true, false⟩

/-- A PDF whose pages carry no extractable text. -/
def pdfBlank : PdfFile := ⟨[""], false, false⟩

/-- A well-formed PDF with one page of text. -/
def pdfText : PdfFile := ⟨["alpha"], false, false⟩

/-- A processor wired for local files only (`GCP_PROJECT_ID` unset). -/
def dpLocal : DocumentProcessor := ⟨500, 50, none, false⟩

/-- A processor with a working GCS client. -/
def dpGcs : DocumentProcessor := ⟨500, 50, some "proj", true⟩

/-- Environment where the local file `bad.pdf` makes extraction raise. -/
def envC2x : Env :=
  ⟨fun p => if p == "bad.pdf" then some pdfRaises else none,
   fun _ _ ds => ds,
   ⟨fun _ _ => .error (), fun _ _ => .error ()⟩⟩

/-- Environment with a blank local PDF and the same blank PDF behind every
GCS object. -/
def envC2 : Env :=
  ⟨fun p => if p == "blank.pdf" then some pdfBlank else none,
   fun _ _ ds => ds,
   ⟨fun _ _ => .ok true, fun _ _ => .ok pdfBlank⟩⟩

/-- Environment with one good local PDF `doc.pdf`; the splitter passes the
page documents through unchanged. -/
def envC4 : Env :=
  ⟨fun p => if p == "doc.pdf" then some pdfText else none,
   fun _ _ ds => ds,
   ⟨fun _ _ => .error (), fun _ _ => .error ()⟩⟩

/-- Environment where the bucket is reachable but every object is absent. -/
def envC5 : Env :=
  ⟨fun _ => none, fun _ _ ds => ds, ⟨fun _ _ => .ok false, fun _ _ => .error ()⟩⟩

/-- GCS holding good PDFs everywhere except `corrupt.pdf`. -/
def envC6 : Env :=
  ⟨fun _ => none,
   fun _ _ ds => ds,
   ⟨fun _ _ => .ok true,
    fun _ b => .ok (if b == "corrupt.pdf" then pdfRaises else pdfText)⟩⟩

/-- A bucket listing with three valid PDFs and one corrupt PDF. -/
def blobsC6 : List String := ["a.pdf", "b.pdf", "c.pdf", "corrupt.pdf"]

/-- Run environment for the bulk-ingestion scenarios. -/
def renvC6 : RagEnv :=
  ⟨some "proj", some "bkt",
   fun b => if b == "bkt" then .ok blobsC6 else .error (),
   envC6⟩

/-- Ingestion target store with an empty, configured cold tier. -/
def vsC6 : HybridVectorStore := ⟨hotW, some ⟨fun _ ds => ds, []⟩⟩

def stateC6 : RagGraphState := ⟨0, none, []⟩

def cfgC6 : RagConfig := ⟨some dpGcs, some vsC6⟩

/-- Environment whose splitter returns no chunks at all. -/
def envC10 : Env :=
  ⟨fun _ => none, fun _ _ _ => [], ⟨fun _ _ => .ok true, fun _ _ => .ok pdfText⟩⟩

/-- Embedding environment with no variables set and a healthy backend. -/
def embEnvC9 : EmbEnv := ⟨none, none, none, true⟩

/-- The chunk list produced from `doc.pdf` in `envC4`. -/
def chunksC4 : List Document := [⟨"alpha", some "doc.pdf", some 0, some 0⟩]

/-! ## Theorems -/

/-- Claim C1: `similarity_search` queries the hot tier for up to `k`
results; when the hot tier returns `k` or more it returns exactly the
first `k` in the hot tier's own order and never queries the cold tier
(cold-query count 0); otherwise, with the cold tier unconfigured it
returns the hot results as-is without error, and with the cold tier
configured it queries it for exactly `k - hot_count` more and returns hot
results followed by cold results; in all cases at most `k` items are
returned. -/
theorem C1_tiered_search_policy (s : HybridVectorStore) (q : String) (k : Nat) :
    (s.similarity_search q k).1.length ≤ k ∧
    (k ≤ (s.hot_store.similarity_search q k).length →
      s.similarity_search q k = ((s.hot_store.similarity_search q k).take k, 0)) ∧
    ((s.hot_store.similarity_search q k).length < k → s.cold_store = none →
      s.similarity_search q k = (s.hot_store.similarity_search q k, 0)) ∧
    ((s.hot_store.similarity_search q k).length < k → ∀ cs, s.cold_store = some cs →
      s.similarity_search q k =
        (s.hot_store.similarity_search q k ++
          cs.similarity_search q (k - (s.hot_store.similarity_search q k).length), 1)) := by
  refine ⟨?_, ?_, ?_, ?_⟩
  · unfold HybridVectorStore.similarity_search
    by_cases h : k ≤ (s.hot_store.similarity_search q k).length
    · simp [h, List.length_take]
    · simp only [h, if_neg, if_false]
      cases hc : s.cold_store with
      | none => simpa using Nat.le_of_lt (Nat.lt_of_not_le h)
      | some cs =>
        simp only [List.length_append]
        have h1 : (s.hot_store.similarity_search q k).length < k := Nat.lt_of_not_le h
        have h2 : (cs.similarity_search q (k - (s.hot_store.similarity_search q k).length)).length ≤
            k - (s.hot_store.similarity_search q k).length := by
          unfold TierStore.similarity_search
          simp [List.length_take]
        omega
  · intro h
    unfold HybridVectorStore.similarity_search
    simp [h]
  · intro h hc
    unfold HybridVectorStore.similarity_search
    simp [Nat.not_le.mpr h, hc]
  · intro h cs hc
    unfold HybridVectorStore.similarity_search
    simp [Nat.not_le.mpr h, hc]

/-- Witness for C1 on a concrete store: one hot result, shortfall of one
filled from the cold tier with exactly one cold query. -/
theorem C1_witness :
    storeC1.similarity_search "q" 2 = ([docA, docB], 1) ∧
    (storeC1.similarity_search "q" 2).1.length ≤ 2 := by
  have h := C1_tiered_search_policy storeC1 "q" 2
  refine ⟨?_, h.1⟩
  have h4 := h.2.2.2 (by decide) coldW rfl
  rw [h4]
  rfl

/-- Claim C3: writing to the cold tier when it is unconfigured raises
`ConfigError` and leaves the store (in particular the hot tier)
unchanged; writing to the hot tier never raises and only appends to the
hot store. -/
theorem C3_add_documents_config (s : HybridVectorStore) (docs : List Document) :
    (s.cold_store = none →
      s.add_documents docs .cold = (some (.configErr "DATABASE_URL is not configured"), s)) ∧
    (s.add_documents docs .hot).1 = none ∧
    (s.add_documents docs .hot).2.hot_store = s.hot_store.add_documents docs ∧
    (s.add_documents docs .hot).2.cold_store = s.cold_store := by
  refine ⟨fun h => ?_, rfl, rfl, rfl⟩
  simp [HybridVectorStore.add_documents, h]

/-- Witness for C3 on a store with no cold tier. -/
theorem C3_witness :
    storeC3.add_documents [docB] .cold =
      (some (.configErr "DATABASE_URL is not configured"), storeC3) ∧
    (storeC3.add_documents [docB] .hot).1 = none := by
  have h := C3_add_documents_config storeC3 [docB]
  exact ⟨h.1 rfl, h.2.1⟩

/-- Helper: `_ensure_text` can only fail with `FileProcessingError` or
`OCRRequiredError`. -/
theorem ensure_text_fail_kind (f : PdfFile) (e : PError)
    (h : DocumentProcessor.ensure_text f = .error e) :
    e.kind = .fileProcessing ∨ e.kind = .ocrRequired := by
  unfold DocumentProcessor.ensure_text at h
  split at h
  · injection h with h'
    left
    rw [← h']
    rfl
  · split at h
    · injection h with h'
      right
      rw [← h']
      rfl
    · exact Except.noConfusion h

/-- Counterexample to claim C2 as stated: on a local PDF for which
page-prefix text extraction raises, `process` fails with
`FileProcessingError`, not `OCRRequired`. -/
theorem C2_counterexample :
    resultKind (dpLocal.process envC2x "bad.pdf").result = some .fileProcessing ∧
    resultKind (dpLocal.process envC2x "bad.pdf").result ≠ some .ocrRequired := by
  constructor
  · rfl
  · decide

/-- Claim C2 (amended): for a local reference, a PDF whose first 3 pages
yield no machine-extractable text makes `process` fail with
`OCRRequired`, while a raising page-prefix extraction makes it fail with
`FileProcessingError`; for a `gs://` reference either failure is wrapped
into `GCSConnectionError`; in every one of these cases the full-document
splitter never runs. -/
theorem C2_text_availability (dp : DocumentProcessor) (env : Env)
    (path uri bucket blob : String) (f g : PdfFile) :
    (strStartsWith path "gs://" = false → strToLower (pathSuffix path) = ".pdf" →
     env.localFile path = some f →
      ((f.extractRaises = true →
        resultKind (dp.process env path).result = some .fileProcessing ∧
        (dp.process env path).splitCalls = 0) ∧
       (f.extractRaises = false → isBlankText (String.join (f.pages.take 3)) = true →
        resultKind (dp.process env path).result = some .ocrRequired ∧
        (dp.process env path).splitCalls = 0))) ∧
    (strStartsWith uri "gs://" = true → dp.storage_client = true →
     splitOnFirstSlash (strDrop uri 5) = some (bucket, blob) →
     env.gcs.blobExists bucket blob = .ok true →
     strEndsWith (strToLower blob) ".pdf" = true →
     env.gcs.download bucket blob = .ok g →
     (DocumentProcessor.ensure_text g).isOk = false →
      resultKind (dp.process env uri).result = some .gcsConnection ∧
      (dp.process env uri).splitCalls = 0) := by
  constructor
  · intro hrem hsuf hfile
    constructor
    · intro hraise
      have hres : dp.process env path =
          ⟨.error (.fileProcessing "Error extracting text for check"), false, false, 0⟩ := by
        simp [DocumentProcessor.process, hrem, hsuf, hfile,
              DocumentProcessor.process_local_pdf, DocumentProcessor.ensure_text,
              extract_text, hraise]
      rw [hres]
      exact ⟨rfl, rfl⟩
    · intro hraise hblank
      have hres : dp.process env path =
          ⟨.error (.ocrRequired "PDF contains no extractable text and may require OCR."),
           false, false, 0⟩ := by
        simp [DocumentProcessor.process, hrem, hsuf, hfile,
              DocumentProcessor.process_local_pdf, DocumentProcessor.ensure_text,
              extract_text, hraise, hblank]
      rw [hres]
      exact ⟨rfl, rfl⟩
  · intro hg hc hp he hsfx hd hfail
    cases hens : DocumentProcessor.ensure_text g with
    | ok u =>
      rw [hens] at hfail
      exact absurd hfail (by simp [Except.isOk, Except.toBool])
    | error e =>
      have hres : dp.process env uri =
          ⟨.error (wrapGcsError uri e), true, true, 0⟩ := by
        simp [DocumentProcessor.process, hg, hc, hp, he, hsfx, hd,
              DocumentProcessor.process_local_pdf, hens, mapErr]
      rw [hres]
      refine ⟨?_, rfl⟩
      rcases ensure_text_fail_kind g e hens with hk | hk <;>
        · cases e <;> simp_all [wrapGcsError, resultKind, PError.kind]

/-- Witness for C2 (amended): a blank one-page PDF locally raises
`OCRRequired`; the same blank PDF fetched from GCS raises
`GCSConnectionError`; the splitter never runs in either case. -/
theorem C2_witness :
    resultKind (dpGcs.process envC2 "blank.pdf").result = some .ocrRequired ∧
    (dpGcs.process envC2 "blank.pdf").splitCalls = 0 ∧
    resultKind (dpGcs.process envC2 "gs://bucket/blank.pdf").result = some .gcsConnection ∧
    (dpGcs.process envC2 "gs://bucket/blank.pdf").splitCalls = 0 := by
  have h := C2_text_availability dpGcs envC2 "blank.pdf" "gs://bucket/blank.pdf"
    "bucket" "blank.pdf" pdfBlank pdfBlank
  have hloc := h.1 (by decide) (by decide) rfl
  have hlocBlank := hloc.2 rfl (by decide)
  have hrem := h.2 (by decide) rfl (by decide) rfl (by decide) rfl (by decide)
  exact ⟨hlocBlank.1, hlocBlank.2, hrem.1, hrem.2⟩

/-- Helper: every element of a stamped chunk list carries the stamped
source and its own 0-based position as `chunk_index`. -/
theorem stampChunks_get (u : String) (l : List Document) (i : Nat)
    (hi : i < (stampChunks u l).length) :
    ((stampChunks u l).get ⟨i, hi⟩).source = some u ∧
    ((stampChunks u l).get ⟨i, hi⟩).chunk_index = some i := by
  unfold stampChunks at hi ⊢
  have hlen : i < l.enum.length := by
    simpa using hi
  simp [List.get_eq_getElem, List.getElem_map, List.getElem_enum]

/-- Helper: when `_process_local_pdf` returns chunks, they are exactly the
splitter output stamped with the original source. -/
theorem process_local_pdf_ok (dp : DocumentProcessor) (env : Env) (fp : String)
    (f : PdfFile) (src : String) (chunks : List Document)
    (h : (dp.process_local_pdf env fp f src).1 = .ok chunks) :
    chunks = stampChunks src (env.split dp.chunk_size dp.chunk_overlap (loadPages fp f)) := by
  unfold DocumentProcessor.process_local_pdf at h
  split at h
  · exact Except.noConfusion h
  · split at h
    · exact Except.noConfusion h
    · injection h with h'
      exact h'.symm

/-- Helper: `mapErr` returns `.ok` exactly when its argument does. -/
theorem mapErr_ok {α : Type} (f : PError → PError) (r : Except PError α) (a : α)
    (h : mapErr f r = .ok a) : r = .ok a := by
  cases r with
  | ok b =>
    injection h with h'
    rw [h']
  | error e => exact Except.noConfusion h

/-- Helper: when `process` returns chunks, they are a stamped list whose
stamp is the original reference. -/
theorem process_ok_stamped (dp : DocumentProcessor) (env : Env) (uri : String)
    (chunks : List Document) (h : (dp.process env uri).result = .ok chunks) :
    ∃ l, chunks = stampChunks uri l := by
  unfold DocumentProcessor.process at h
  split at h
  · split at h
    · exact Except.noConfusion h
    · split at h
      · exact Except.noConfusion h
      · split at h
        · exact Except.noConfusion h
        · exact Except.noConfusion h
        · split at h
          · exact Except.noConfusion h
          · split at h
            · exact Except.noConfusion h
            · exact ⟨_, process_local_pdf_ok dp env _ _ uri chunks (mapErr_ok _ _ _ h)⟩
  · split at h
    · exact Except.noConfusion h
    · split at h
      · exact Except.noConfusion h
      · exact ⟨_, process_local_pdf_ok dp env _ _ uri chunks h⟩

/-- Claim C4: every chunk of a successfully processed document carries
`source` equal to the original reference (for remote documents the
`gs://` URI, never the temporary local path) and `chunk_index` equal to
its 0-based position in the returned sequence. -/
theorem C4_chunk_provenance (dp : DocumentProcessor) (env : Env) (uri : String)
    (chunks : List Document) (h : (dp.process env uri).result = .ok chunks)
    (i : Nat) (hi : i < chunks.length) :
    (chunks.get ⟨i, hi⟩).source = some uri ∧
    (chunks.get ⟨i, hi⟩).chunk_index = some i := by
  obtain ⟨l, rfl⟩ := process_ok_stamped dp env uri chunks h
  exact stampChunks_get uri l i hi

/-- Witness for C4: processing the local file `doc.pdf` yields one chunk
stamped with source `doc.pdf` and `chunk_index` 0. -/
theorem C4_witness :
    (dpLocal.process envC4 "doc.pdf").result = .ok chunksC4 ∧
    (chunksC4.get ⟨0, by decide⟩).source = some "doc.pdf" ∧
    (chunksC4.get ⟨0, by decide⟩).chunk_index = some 0 := by
  have h : (dpLocal.process envC4 "doc.pdf").result = .ok chunksC4 := by rfl
  exact ⟨h, (C4_chunk_provenance dpLocal envC4 "doc.pdf" chunksC4 h 0 (by decide)).1,
    (C4_chunk_provenance dpLocal envC4 "doc.pdf" chunksC4 h 0 (by decide)).2⟩

/-- Claim C5: a `gs://` reference whose bucket is reachable (the
existence check returns normally) but whose object does not exist fails
with `FileNotFoundError`, not with `GCSConnectionError`. -/
theorem C5_missing_object_is_not_found (dp : DocumentProcessor) (env : Env)
    (uri bucket blob : String) (hg : strStartsWith uri "gs://" = true)
    (hc : dp.storage_client = true)
    (hp : splitOnFirstSlash (strDrop uri 5) = some (bucket, blob))
    (he : env.gcs.blobExists bucket blob = .ok false) :
    (dp.process env uri).result = .error (.notFound ("GCS object not found: " ++ uri)) ∧
    resultKind (dp.process env uri).result ≠ some .gcsConnection := by
  have hres : dp.process env uri =
      ⟨.error (.notFound ("GCS object not found: " ++ uri)), false, false, 0⟩ := by
    simp [DocumentProcessor.process, hg, hc, hp, he]
  rw [hres]
  exact ⟨rfl, by simp [resultKind, PError.kind]⟩

/-- Witness for C5 at the spec's own scenario `gs://bucket/missing.pdf`. -/
theorem C5_witness :
    (dpGcs.process envC5 "gs://bucket/missing.pdf").result =
      .error (.notFound ("GCS object not found: " ++ "gs://bucket/missing.pdf")) ∧
    resultKind (dpGcs.process envC5 "gs://bucket/missing.pdf").result ≠
      some .gcsConnection := by
  exact C5_missing_object_is_not_found dpGcs envC5 "gs://bucket/missing.pdf"
    "bucket" "missing.pdf" rfl rfl rfl rfl

/-- Claim C8: a temporary file is created only in the remote branch, and
whenever one is created it is deleted again on every exit path of
`process` — successful or exceptional. -/
theorem C8_temp_file_cleanup (dp : DocumentProcessor) (env : Env) (uri : String) :
    (dp.process env uri).tempDeleted = (dp.process env uri).tempCreated := by
  unfold DocumentProcessor.process
  split
  · split
    · rfl
    · split
      · rfl
      · split
        · rfl
        · rfl
        · split
          · rfl
          · split
            · rfl
            · rfl
  · split
    · rfl
    · split
      · rfl
      · rfl

/-- Helper: one loop iteration of the bulk-ingestion driver, characterized
by `blobProcessed` / `blobFailed`: the processed count grows by one
exactly on a processed blob, the error list grows by exactly the one
message of a failed blob, and whether the cold tier is configured never
changes. -/
theorem ragStep_char (dp : DocumentProcessor) (env : Env) (bucket : String) (coldCfg : Bool)
    (vs : HybridVectorStore) (c : Nat) (errs : List String) (b : String)
    (hcold : vs.cold_store.isSome = coldCfg) :
    (ragStep dp env bucket (vs, c, errs) b).2.1 =
      c + (if blobProcessed dp env bucket coldCfg b then 1 else 0) ∧
    (ragStep dp env bucket (vs, c, errs) b).2.2 =
      errs ++ (if blobFailed dp env bucket coldCfg b then [ragErrMsg bucket b] else []) ∧
    (ragStep dp env bucket (vs, c, errs) b).1.cold_store.isSome = coldCfg := by
  subst hcold
  unfold ragStep blobProcessed blobFailed
  by_cases hpdf : strEndsWith (strToLower b) ".pdf" = true
  · simp only [hpdf, if_true, Bool.true_and]
    cases hres : (dp.process env (ragUri bucket b)).result with
    | error e => simp
    | ok chunks =>
      by_cases hemp : chunks.isEmpty = true
      · simp [hemp]
      · cases hcs : vs.cold_store with
        | none =>
          simp [HybridVectorStore.add_documents, hcs, hemp]
        | some cs =>
          simp [HybridVectorStore.add_documents, hcs, hemp]
  · simp [hpdf]

/-- Helper: the whole ingestion loop, characterized by counting:
folding `ragStep` over the blob names adds `countP blobProcessed` to the
processed count and appends exactly the error messages of the failed
blobs, in bucket order, and preserves cold-tier configuration. -/
theorem ragFold_char (dp : DocumentProcessor) (env : Env) (bucket : String) (coldCfg : Bool)
    (blobs : List String) :
    ∀ (vs : HybridVectorStore) (c : Nat) (errs : List String),
      vs.cold_store.isSome = coldCfg →
      (blobs.foldl (ragStep dp env bucket) (vs, c, errs)).2.1 =
        c + blobs.countP (blobProcessed dp env bucket coldCfg) ∧
      (blobs.foldl (ragStep dp env bucket) (vs, c, errs)).2.2 =
        errs ++ (blobs.filter (blobFailed dp env bucket coldCfg)).map (ragErrMsg bucket) ∧
      (blobs.foldl (ragStep dp env bucket) (vs, c, errs)).1.cold_store.isSome = coldCfg := by
  induction blobs with
  | nil =>
    intro vs c errs h
    exact ⟨by simp, by simp, by simpa using h⟩
  | cons b bs ih =>
    intro vs c errs h
    have hstep := ragStep_char dp env bucket coldCfg vs c errs b h
    rcases hs : ragStep dp env bucket (vs, c, errs) b with ⟨vs', c', errs'⟩
    rw [hs] at hstep
    have hc' : c' = c + (if blobProcessed dp env bucket coldCfg b then 1 else 0) := hstep.1
    have he' : errs' = errs ++ (if blobFailed dp env bucket coldCfg b then [ragErrMsg bucket b] else []) :=
      hstep.2.1
    have hcold' : vs'.cold_store.isSome = coldCfg := hstep.2.2
    simp only [List.foldl_cons, hs]
    obtain ⟨ihc, ihe, ihcold⟩ := ih vs' c' errs' hcold'
    refine ⟨?_, ?_, ihcold⟩
    · rw [ihc, hc', List.countP_cons]
      by_cases hp : blobProcessed dp env bucket coldCfg b = true
      all_goals simp [hp]
      all_goals omega
    · rw [ihe, he', List.filter_cons]
      by_cases hp : blobFailed dp env bucket coldCfg b = true <;>
        simp [hp, List.append_assoc]

/-- Claim C6: in a bulk-ingestion run with wired configuration, every
per-document failure only appends its descriptive message to the error
list and never aborts the batch: the processed count is exactly the
number of `.pdf` blobs that yielded chunks and were stored, and the final
error list is the initial one plus exactly one message per failed blob,
in bucket order. -/
theorem C6_batch_isolation (state : RagGraphState) (dp0 : DocumentProcessor)
    (vs : HybridVectorStore) (renv : RagEnv) (bucket : String) (blobs : List String)
    (hb : orTruthy state.gcs_bucket_name renv.rag_gcs_bucket_name = some bucket)
    (hbne : strIsEmpty bucket = false)
    (hp : truthy renv.gcp_project_id = true)
    (hl : renv.listBlobs bucket = .ok blobs) :
    (rag_load_data_from_gcs state ⟨some dp0, some vs⟩ renv).state.documents_processed_from_gcs =
      blobs.countP
        (blobProcessed (resolveDp dp0 renv.gcp_project_id) renv.docEnv bucket
          vs.cold_store.isSome) ∧
    (rag_load_data_from_gcs state ⟨some dp0, some vs⟩ renv).state.error_messages =
      state.error_messages ++
        (blobs.filter
          (blobFailed (resolveDp dp0 renv.gcp_project_id) renv.docEnv bucket
            vs.cold_store.isSome)).map (ragErrMsg bucket) := by
  have hfold := ragFold_char (resolveDp dp0 renv.gcp_project_id) renv.docEnv bucket
    vs.cold_store.isSome blobs vs 0 state.error_messages rfl
  have ht : truthy (some bucket) = true := by simp [truthy, hbne]
  have hrun : rag_load_data_from_gcs state ⟨some dp0, some vs⟩ renv =
      ⟨⟨(blobs.foldl (ragStep (resolveDp dp0 renv.gcp_project_id) renv.docEnv bucket)
          (vs, 0, state.error_messages)).2.1,
        some bucket,
        (blobs.foldl (ragStep (resolveDp dp0 renv.gcp_project_id) renv.docEnv bucket)
          (vs, 0, state.error_messages)).2.2⟩,
       some (blobs.foldl (ragStep (resolveDp dp0 renv.gcp_project_id) renv.docEnv bucket)
          (vs, 0, state.error_messages)).1, 1⟩ := by
    unfold rag_load_data_from_gcs
    rw [hb]
    simp [hp, ht, hl]
  rw [hrun]
  exact ⟨by simpa using hfold.1, by simpa using hfold.2.1⟩

/-- Witness for C6: a bucket with three valid PDFs and one corrupt PDF
yields `processed_count = 3` and exactly one error entry. -/
theorem C6_witness :
    (rag_load_data_from_gcs stateC6 cfgC6 renvC6).state.documents_processed_from_gcs = 3 ∧
    (rag_load_data_from_gcs stateC6 cfgC6 renvC6).state.error_messages.length = 1 := by
  have h := C6_batch_isolation stateC6 dpGcs vsC6 renvC6 "bkt" blobsC6 rfl rfl rfl rfl
  constructor
  · exact h.1.trans (by decide)
  · have h2 := congrArg List.length h.2
    exact h2.trans (by decide)

/-- Claim C7: a missing processor/store wiring, an unset project id, or an
unresolvable bucket name short-circuits the run before any enumeration:
the bucket is never listed, the processed count is 0, and exactly one
error message is reported on top of the incoming ones. -/
theorem C7_config_short_circuit (state : RagGraphState) (cfg : RagConfig) (renv : RagEnv)
    (h : cfg.document_processor.isNone = true ∨ cfg.vector_store.isNone = true ∨
         truthy renv.gcp_project_id = false ∨
         truthy (orTruthy state.gcs_bucket_name renv.rag_gcs_bucket_name) = false) :
    (rag_load_data_from_gcs state cfg renv).state.documents_processed_from_gcs = 0 ∧
    (rag_load_data_from_gcs state cfg renv).listCalls = 0 ∧
    ∃ m, (rag_load_data_from_gcs state cfg renv).state.error_messages =
      state.error_messages ++ [m] := by
  by_cases h1 : (cfg.document_processor.isNone || cfg.vector_store.isNone) = true
  · have hrun : rag_load_data_from_gcs state cfg renv =
        ⟨⟨0, orTruthy state.gcs_bucket_name renv.rag_gcs_bucket_name,
          state.error_messages ++ [cfgMissingMsg]⟩, cfg.vector_store, 0⟩ := by
      unfold rag_load_data_from_gcs
      simp [h1]
    rw [hrun]
    exact ⟨rfl, rfl, cfgMissingMsg, rfl⟩
  · by_cases h2 : truthy renv.gcp_project_id = true
    · have h3 : truthy (orTruthy state.gcs_bucket_name renv.rag_gcs_bucket_name) = false := by
        rcases h with h | h | h | h
        · exact absurd h1 (by simp [h])
        · exact absurd h1 (by simp [h])
        · exact absurd h2 (by simp [h])
        · exact h
      have hrun : rag_load_data_from_gcs state cfg renv =
          ⟨⟨0, orTruthy state.gcs_bucket_name renv.rag_gcs_bucket_name,
            state.error_messages ++ [bucketMissingMsg]⟩, cfg.vector_store, 0⟩ := by
        unfold rag_load_data_from_gcs
        simp [h1, h2, h3]
      rw [hrun]
      exact ⟨rfl, rfl, bucketMissingMsg, rfl⟩
    · have h2' : truthy renv.gcp_project_id = false := by
        revert h2
        cases truthy renv.gcp_project_id <;> simp
      have hrun : rag_load_data_from_gcs state cfg renv =
          ⟨⟨0, orTruthy state.gcs_bucket_name renv.rag_gcs_bucket_name,
            state.error_messages ++ [projMissingMsg]⟩, cfg.vector_store, 0⟩ := by
        unfold rag_load_data_from_gcs
        simp [h1, h2']
      rw [hrun]
      exact ⟨rfl, rfl, projMissingMsg, rfl⟩

/-- Witness for C7: with neither processor nor store wired in, the run
reports once and never enumerates. -/
theorem C7_witness :
    (rag_load_data_from_gcs stateC6 ⟨none, none⟩ renvC6).state.documents_processed_from_gcs
      = 0 ∧
    (rag_load_data_from_gcs stateC6 ⟨none, none⟩ renvC6).listCalls = 0 := by
  have h := C7_config_short_circuit stateC6 ⟨none, none⟩ renvC6 (Or.inl rfl)
  exact ⟨h.1, h.2.1⟩

/-- Claim C10: a document whose processing succeeds with an empty chunk
sequence is skipped silently: the loop body leaves the store, the
processed count and the error list untouched, so removing such a blob
from the bucket listing does not change the fold at all. -/
theorem C10_empty_chunks_skipped (dp : DocumentProcessor) (env : Env) (bucket b : String)
    (h : (dp.process env (ragUri bucket b)).result = .ok []) :
    (∀ acc : HybridVectorStore × Nat × List String, ragStep dp env bucket acc b = acc) ∧
    ∀ (blobs1 blobs2 : List String) (acc : HybridVectorStore × Nat × List String),
      (blobs1 ++ b :: blobs2).foldl (ragStep dp env bucket) acc =
        (blobs1 ++ blobs2).foldl (ragStep dp env bucket) acc := by
  have hstep : ∀ acc : HybridVectorStore × Nat × List String,
      ragStep dp env bucket acc b = acc := by
    intro acc
    unfold ragStep
    by_cases hpdf : strEndsWith (strToLower b) ".pdf" = true
    · simp [hpdf, h]
    · simp [hpdf]
  refine ⟨hstep, fun blobs1 blobs2 acc => ?_⟩
  rw [List.foldl_append, List.foldl_cons, hstep, ← List.foldl_append]

/-- Witness for C10: a blob whose splitter output is empty leaves an
arbitrary concrete accumulator unchanged. -/
theorem C10_witness :
    ragStep dpGcs envC10 "bkt" (vsC6, 5, ["earlier"]) "empty.pdf" = (vsC6, 5, ["earlier"]) := by
  have h := C10_empty_chunks_skipped dpGcs envC10 "bkt" "empty.pdf" rfl
  exact h.1 _

/-- Counterexample to claim C9 as stated: constructing the embedding
service with the location missing from both the arguments and the
environment succeeds (the module-level default `us-central1` fills in);
it does not fail with `ConfigError`. -/
theorem C9_counterexample :
    EmbeddingService.create (some "text-embedding-004") (some "proj") none embEnvC9 =
      .ok ⟨"proj", "us-central1", "text-embedding-004"⟩ := by
  rfl

/-- Claim C9 (amended): a missing (or empty) model identifier or project
— from arguments and environment alike — fails construction with
`ConfigError` (project checked first); a missing location instead falls
back to the module default `us-central1`, so construction succeeds when
the other values are present and the backend initializes. -/
theorem C9_construction_config (model_name project_id location : Option String)
    (env : EmbEnv) :
    (truthy (orTruthy project_id env.gcp_project_id) = false →
      EmbeddingService.create model_name project_id location env =
        .error (.configErr "GCP_PROJECT_ID is not set.")) ∧
    (truthy (orTruthy project_id env.gcp_project_id) = true →
     truthy (orTruthy model_name env.embedding_model_name) = false →
      EmbeddingService.create model_name project_id location env =
        .error (.configErr "EMBEDDING_MODEL_NAME is not set.")) ∧
    (location = none → env.gcp_location = none →
     truthy (orTruthy project_id env.gcp_project_id) = true →
     truthy (orTruthy model_name env.embedding_model_name) = true →
     env.vertexInitOk = true →
      ∃ s, EmbeddingService.create model_name project_id location env = .ok s ∧
        s.location = GCP_LOCATION) := by
  refine ⟨?_, ?_, ?_⟩
  · intro hproj
    simp [EmbeddingService.create, hproj]
  · intro hproj hmodel
    simp [EmbeddingService.create, hproj, hmodel]
  · intro hloc henv hproj hmodel hinit
    subst hloc
    have hl : orTruthy none (some (env.gcp_location.getD GCP_LOCATION)) =
        some GCP_LOCATION := by
      simp [orTruthy, truthy, henv]
    refine ⟨⟨(orTruthy project_id env.gcp_project_id).getD "", GCP_LOCATION,
      (orTruthy model_name env.embedding_model_name).getD ""⟩, ?_, rfl⟩
    have hloc' : truthy (some GCP_LOCATION) = true := by decide
    unfold EmbeddingService.create
    rw [hl]
    simp [hproj, hmodel, hloc', hinit]

/-- Witness for C9 (amended): with nothing set, construction fails with
the project `ConfigError`; with model and project set and no location
anywhere, construction succeeds at the default location. -/
theorem C9_witness :
    EmbeddingService.create none none none embEnvC9 =
      .error (.configErr "GCP_PROJECT_ID is not set.") ∧
    ∃ s, EmbeddingService.create (some "text-embedding-004") (some "proj") none embEnvC9 =
      .ok s ∧ s.location = GCP_LOCATION := by
  constructor
  · exact (C9_construction_config none none none embEnvC9).1 rfl
  · exact (C9_construction_config (some "text-embedding-004") (some "proj") none
      embEnvC9).2.2 rfl rfl rfl rfl rfl
